import Mathlib

/-!
# Shallow embedding of `src/utils/error-handler.ts`

This file embeds the error-handling / retry / diagnostics wrapper of the
repository (class `ErrorHandler` together with the `TestError` error kind)
into Lean and proves the specification claims about it.

Modelling conventions:
* a JavaScript promise that can reject is modelled as `Except JsError α`;
* an action passed to `retryAction` may behave differently on each
  invocation, so it is modelled as a function from the (1-based) invocation
  index to the outcome of that invocation; similarly the predicate given to
  `waitForCondition` is a function from the (0-based) poll index to the
  outcome of that evaluation;
* `await this.page.waitForTimeout(d)` only inserts a delay, so the embedding
  records the sequence of delays (`delays` field) instead of sleeping;
* JavaScript's `x || d` default-application on numbers (where both
  `undefined` and `0` are falsy) is `jsOrNat`, and on strings (where both
  `undefined` and `""` are falsy) is `jsOrStr`;
* the synchronous, non-throwing Playwright accessors `page.url()` and
  `page.viewportSize()` are plain fields of the `Page` model, while the
  asynchronous ones (`title`, `cookies`, the three `evaluate` calls) may
  reject and are `Except JsError _` fields;
* `logger.error` / `logger.warn` / `logger.debug` only emit log records, so
  functions that log return the list of emitted `LogEntry` values.
-/

/-- Embeds interface `ErrorContext` (error-handler.ts, lines 4-9). -/
structure ErrorContext where
  action : String
  selector : Option String := none
  url : Option String := none
  additionalInfo : Option String := none
deriving DecidableEq, Repr

/-- A JavaScript error value as seen by this subsystem: either a plain
(library/raw) `Error` carrying just a message, or the custom `TestError`
class (error-handler.ts, lines 11-25) carrying a message, the `ErrorContext`
and optionally the original underlying error. -/
inductive JsError where
  | raw (message : String)
  | testError (message : String) (context : ErrorContext)
      (originalError : Option JsError)

/-- The `.message` property of a JavaScript error. -/
def JsError.message : JsError → String
  | .raw m => m
  | .testError m _ _ => m

/-- Whether an error value is an instance of `TestError`. -/
def JsError.isTestError : JsError → Bool
  | .raw _ => false
  | .testError _ _ _ => true

/-- The `.context` property: present exactly on `TestError` instances. -/
def JsError.contextProp : JsError → Option ErrorContext
  | .raw _ => none
  | .testError _ c _ => some c

/-- The `.context` field of the error a rejected promise carries, when the
promise rejected with a `TestError`. -/
def rejectionContext {α : Type} : Except JsError α → Option ErrorContext
  | .ok _ => none
  | .error e => e.contextProp

/-- JavaScript `x || d` on an optional number: `undefined` and `0` are
falsy, every other number is returned unchanged. -/
def jsOrNat (x : Option Nat) (d : Nat) : Nat :=
  if x.getD 0 = 0 then d else x.getD 0

/-- JavaScript `x || d` on an optional string: `undefined` and `""` are
falsy, every other string is returned unchanged. -/
def jsOrStr (x : Option String) (d : String) : String :=
  if x.getD "" = "" then d else x.getD ""

/-- JavaScript `lastError?.message` where `lastError` may be `undefined`
(interpolating `undefined` into the template string in that case). -/
def lastMessage : Option JsError → String
  | none => "undefined"
  | some e => e.message

/-- Embeds the options parameter of `retryAction`
(error-handler.ts, lines 98-103). -/
structure RetryOptions where
  maxRetries : Option Nat := none
  initialDelay : Option Nat := none
  maxDelay : Option Nat := none
  context : ErrorContext
deriving DecidableEq

/-- Observable outcome of one call to `retryAction`: the settled promise,
how many times the action was invoked, and the backoff delays inserted
between consecutive attempts, in order. -/
structure RetryOutcome (α : Type) where
  result : Except JsError α
  invocations : Nat
  delays : List Nat

/-- The message of the `TestError` thrown when all retries are exhausted
(error-handler.ts, line 139). -/
def retryFailMessage (maxRetries : Nat) (lastError : Option JsError) : String :=
  "Action failed after " ++ toString maxRetries ++ " attempts: " ++
    lastMessage lastError

/-- The `for` loop of `retryAction` (error-handler.ts, lines 111-142).
`attempt` is the 1-based index of the current iteration and `fuel` the
number of iterations still allowed including the current one (so the loop
guard `attempt <= maxRetries` corresponds to `fuel > 0`; the `break` on the
last failing attempt corresponds to the inner `fuel = 0` test).  `delays`
accumulates the inserted backoff delays in reverse. -/
def retryGo {α : Type} (action : Nat → Except JsError α)
    (maxRetries initialDelay maxDelay : Nat) (context : ErrorContext) :
    Nat → Nat → Option JsError → List Nat → RetryOutcome α
  | attempt, 0, lastError, delays =>
      { result := .error (.testError (retryFailMessage maxRetries lastError)
          context lastError)
        invocations := attempt - 1
        delays := delays.reverse }
  | attempt, fuel + 1, _lastError, delays =>
      match action attempt with
      | .ok v =>
          { result := .ok v, invocations := attempt, delays := delays.reverse }
      | .error e =>
          if fuel = 0 then
            { result := .error (.testError
                (retryFailMessage maxRetries (some e)) context (some e))
              invocations := attempt
              delays := delays.reverse }
          else
            retryGo action maxRetries initialDelay maxDelay context
              (attempt + 1) fuel (some e)
              (min (initialDelay * 2 ^ (attempt - 1)) maxDelay :: delays)

/-- Embeds `ErrorHandler.retryAction` (error-handler.ts, lines 96-143):
applies the `||` defaults (lines 105-107) and runs the attempt loop starting
at attempt 1. -/
def retryAction {α : Type} (action : Nat → Except JsError α)
    (options : RetryOptions) : RetryOutcome α :=
  let maxRetries := jsOrNat options.maxRetries 3
  let initialDelay := jsOrNat options.initialDelay 1000
  let maxDelay := jsOrNat options.maxDelay 10000
  retryGo action maxRetries initialDelay maxDelay options.context
    1 maxRetries none []

example :
    retryAction (fun _ => (Except.error (JsError.raw "boom") : Except JsError Nat))
      { context := { action := "click" } } =
    { result := .error (.testError "Action failed after 3 attempts: boom"
        { action := "click" } (some (.raw "boom")))
      invocations := 3
      delays := [1000, 2000] } := rfl

example :
    retryAction (fun i => if i = 2 then Except.ok 7 else .error (.raw "x"))
      { maxRetries := some 5, context := { action := "a" } } =
    { result := .ok 7, invocations := 2, delays := [1000] } := rfl

/-- A viewport size as returned by `page.viewportSize()`. -/
structure Viewport where
  width : Nat
  height : Nat
deriving DecidableEq

/-- A browser cookie as returned by `page.context().cookies()`. -/
structure Cookie where
  name : String
  value : String
deriving DecidableEq

/-- Model of the Playwright `Page` as used by `ErrorHandler`.  The
synchronous accessors `url()` and `viewportSize()` never throw and are plain
fields; the asynchronous queries used by `captureDiagnostics` (lines 76-85)
may reject and are modelled as `Except JsError _` outcomes. -/
structure Page where
  url : String
  viewportSize : Option Viewport
  title : Except JsError String
  cookies : Except JsError (List Cookie)
  evalLocalStorage : Except JsError String
  evalSessionStorage : Except JsError String
  evalUserAgent : Except JsError String

/-- The full diagnostics snapshot built by `captureDiagnostics`
(error-handler.ts, lines 74-87). -/
structure DiagSnapshot where
  url : String
  title : String
  viewport : Option Viewport
  cookies : List Cookie
  localStorage : String
  sessionStorage : String
  userAgent : String
  timestamp : String

/-- What `captureDiagnostics` resolves with: either the full snapshot or the
tagged fallback object `\x7b error: string \x7d` built in its `catch` branch. -/
inductive DiagResult where
  | snapshot (s : DiagSnapshot)
  | failure (error : String)

/-- The `try` block of `captureDiagnostics` (error-handler.ts, lines 73-87):
builds the snapshot object, propagating the first rejection of an awaited
page query.  `now` stands for `new Date().toISOString()`. -/
def captureDiagnosticsBody (page : Page) (now : String) :
    Except JsError DiagSnapshot := do
  let title ← page.title
  let cookies ← page.cookies
  let localStorage ← page.evalLocalStorage
  let sessionStorage ← page.evalSessionStorage
  let userAgent ← page.evalUserAgent
  pure { url := page.url, title := title, viewport := page.viewportSize,
         cookies := cookies, localStorage := localStorage,
         sessionStorage := sessionStorage, userAgent := userAgent,
         timestamp := now }

/-- Embeds `ErrorHandler.captureDiagnostics` (error-handler.ts, lines
72-91).  The outer `Except` is the promise's rejection channel: the `catch`
branch (lines 88-90) converts every failure of the body into a *successful*
return of the tagged error object. -/
def captureDiagnostics (page : Page) (now : String) :
    Except JsError DiagResult :=
  match captureDiagnosticsBody page now with
  | .ok s => .ok (.snapshot s)
  | .error _ => .ok (.failure "Failed to capture diagnostics")

/-- Severity of an emitted log record (`logger.error` / `warn` / `debug`). -/
inductive LogLevel where
  | error
  | warn
  | debug
deriving DecidableEq

/-- A log record: severity and message of a `logger.<level>(message, data)`
call. -/
structure LogEntry where
  level : LogLevel
  message : String
deriving DecidableEq

/-- Embeds `ErrorHandler.handleError` (error-handler.ts, lines 48-67),
returning the log records it emits.  The first record is the
`logger.error('Test action failed', ...)` call; then the `try` block around
`captureDiagnostics` logs `Diagnostics captured` at debug level when the
capture promise resolves (it always does) and `Failed to capture
diagnostics` at warn level when it rejects. -/
def handleError (page : Page) (error : JsError) (context : ErrorContext)
    (now : String) : List LogEntry :=
  let _errorMessage := jsOrStr (some error.message) "Unknown error"
  let _url := page.url
  let first : LogEntry := { level := .error, message := "Test action failed" }
  match captureDiagnostics page now with
  | .ok _ => [first, { level := .debug, message := "Diagnostics captured" }]
  | .error _ =>
      [first, { level := .warn, message := "Failed to capture diagnostics" }]

/-- Embeds `ErrorHandler.wrapAction` (error-handler.ts, lines 33-43).  The
single invocation of the wrapped action is modelled by its outcome
`action : Except JsError α`.  On failure the handler runs `handleError`
(which in the model never rejects) and then re-throws the original error
(`throw error`, line 41).  The second component is the list of log records
emitted. -/
def wrapAction {α : Type} (page : Page) (action : Except JsError α)
    (context : ErrorContext) (now : String) :
    Except JsError α × List LogEntry :=
  match action with
  | .ok v => (.ok v, [])
  | .error e => (.error e, handleError page e context now)

/-- Embeds the options parameter of `waitForCondition`
(error-handler.ts, lines 171-176). -/
structure WaitOptions where
  timeout : Option Nat := none
  interval : Option Nat := none
  errorMessage : Option String := none
  context : ErrorContext

/-- Observable outcome of one call to `waitForCondition`: the settled
promise and the number of times the predicate was evaluated. -/
structure WaitOutcome where
  result : Except JsError Unit
  polls : Nat

/-- The `while` loop of `waitForCondition` (error-handler.ts, lines
184-196) under the time model in which each `waitForTimeout(interval)`
advances the clock by `interval` and everything else is instantaneous, so
`Date.now() - startTime` equals the `elapsed` argument.  `k` is the 0-based
index of the next predicate evaluation; a predicate evaluation that throws
is swallowed by the `catch` (lines 189-191) and treated like `false`. -/
def waitGo (condition : Nat → Except JsError Bool) (interval timeout : Nat)
    (errorMessage : String) (context : ErrorContext) (hpos : 0 < interval)
    (k elapsed : Nat) : WaitOutcome :=
  if h : elapsed < timeout then
    match condition k with
    | .ok true => { result := .ok (), polls := k + 1 }
    | _ =>
        waitGo condition interval timeout errorMessage context hpos
          (k + 1) (elapsed + interval)
  else
    { result := .error (.testError errorMessage context none), polls := k }
termination_by timeout - elapsed
decreasing_by omega

/-- Embeds `ErrorHandler.waitForCondition` (error-handler.ts, lines
169-197): applies the `||` defaults (lines 178-180) and runs the polling
loop from time 0. -/
def waitForCondition (condition : Nat → Except JsError Bool)
    (options : WaitOptions) : WaitOutcome :=
  waitGo condition (jsOrNat options.interval 500) (jsOrNat options.timeout 30000)
    (jsOrStr options.errorMessage "Condition not met within timeout")
    options.context
    (by unfold jsOrNat; split <;> omega) 0 0

example :
    waitForCondition (fun _ => .error (.raw "x"))
      { timeout := some 3, interval := some 1, context := { action := "w" } } =
    { result := .error (.testError "Condition not met within timeout"
        { action := "w" } none)
      polls := 3 } := by simp [waitForCondition, waitGo, jsOrNat, jsOrStr]

example :
    waitForCondition (fun k => .ok (k = 2))
      { timeout := some 30, interval := some 10, context := { action := "w" } } =
    { result := .ok (), polls := 3 } := by
  simp [waitForCondition, waitGo, jsOrNat, jsOrStr]

/-- Whether a promise settled successfully (`true`) or rejected (`false`). -/
def promiseResolved {α : Type} : Except JsError α → Bool
  | .ok _ => true
  | .error _ => false

/-- The `.message` of the error a rejected promise carries. -/
def rejectionMessage {α : Type} : Except JsError α → Option String
  | .ok _ => none
  | .error e => some e.message

/-- A sample `ErrorContext` used for concrete evaluations. -/
def ctx0 : ErrorContext :=
  { action := "click", selector := some "#submit" }

/-- A sample action that rejects with the same raw error on every
invocation. -/
def alwaysFailRaw : Nat → Except JsError Nat :=
  fun _ => .error (.raw "boom")

/-- A sample action that rejects on attempts 1 and 2 and resolves with 42
from attempt 3 on. -/
def failTwiceThenOk : Nat → Except JsError Nat :=
  fun i => if 3 ≤ i then .ok 42 else .error (.raw "flaky")

/-- A sample polling predicate that throws on every evaluation. -/
def alwaysThrowCond : Nat → Except JsError Bool :=
  fun _ => .error (.raw "detached")

/-- A page on which every asynchronous query rejects (e.g. the page was
closed), used to exercise the diagnostics failure paths. -/
def badPage : Page :=
  { url := "https://example.test/checkout"
    viewportSize := none
    title := .error (.raw "page closed")
    cookies := .error (.raw "page closed")
    evalLocalStorage := .error (.raw "page closed")
    evalSessionStorage := .error (.raw "page closed")
    evalUserAgent := .error (.raw "page closed") }

/-- A healthy page on which every query succeeds. -/
def okPage : Page :=
  { url := "https://example.test/home"
    viewportSize := some { width := 1280, height := 720 }
    title := .ok "Home"
    cookies := .ok [{ name := "session", value := "abc" }]
    evalLocalStorage := .ok "storage"
    evalSessionStorage := .ok "storage"
    evalUserAgent := .ok "test-agent" }

/-! ## Helper lemmas about the embedded operations -/

theorem jsOrNat_pos (x : Option Nat) (d : Nat) (hd : 0 < d) :
    0 < jsOrNat x d := by
  unfold jsOrNat
  split <;> omega

theorem jsOrNat_some_of_pos (n d : Nat) (hn : 1 ≤ n) :
    jsOrNat (some n) d = n := by
  unfold jsOrNat
  simp only [Option.getD_some]
  split <;> omega

/-- The attempt loop never invokes the action more often than the number of
iterations it is still allowed. -/
theorem retryGo_invocations_le {α : Type} (action : Nat → Except JsError α)
    (mR iD mD : Nat) (ctx : ErrorContext) :
    ∀ (fuel attempt : Nat) (lastError : Option JsError) (delays : List Nat),
      (retryGo action mR iD mD ctx attempt fuel lastError delays).invocations ≤
        attempt + fuel - 1 := by
  intro fuel
  induction fuel with
  | zero =>
      intro attempt lastError delays
      simp only [retryGo]
      omega
  | succ f ih =>
      intro attempt lastError delays
      simp only [retryGo]
      cases hact : action attempt with
      | ok v => simp
      | error e =>
          by_cases hf : f = 0
          · subst hf
            simp
          · simp only [hf, if_neg, ite_false]
            simp [hf]
            have h := ih (attempt + 1) (some e)
              (min (iD * 2 ^ (attempt - 1)) mD :: delays)
            omega

/-- If every attempt in the remaining window fails, the attempt loop runs
the window to the end, throws the `TestError` built from the last error,
and the recorded backoff delays are
`min (initialDelay * 2 ^ (i - 1)) maxDelay` for each non-final attempt
index `i` of the window. -/
theorem retryGo_all_fail {α : Type} (action : Nat → Except JsError α)
    (mR iD mD : Nat) (ctx : ErrorContext) :
    ∀ (fuel attempt : Nat) (lastError : Option JsError) (delays : List Nat),
      1 ≤ fuel → attempt + fuel = mR + 1 →
      (∀ i, attempt ≤ i → i ≤ mR → ∃ e, action i = .error e) →
      ∃ e, action mR = .error e ∧
        retryGo action mR iD mD ctx attempt fuel lastError delays =
          { result := .error (.testError (retryFailMessage mR (some e)) ctx
              (some e))
            invocations := mR
            delays := delays.reverse ++ (List.range' attempt (fuel - 1)).map
              (fun i => min (iD * 2 ^ (i - 1)) mD) } := by
  intro fuel
  induction fuel with
  | zero =>
      intro attempt lastError delays h1
      exact absurd h1 (by omega)
  | succ f ih =>
      intro attempt lastError delays _h1 hsum hfail
      by_cases hf : f = 0
      · subst hf
        have ha : attempt = mR := by omega
        subst ha
        obtain ⟨e, he⟩ := hfail attempt (Nat.le_refl _) (Nat.le_refl _)
        refine ⟨e, he, ?_⟩
        simp only [retryGo, he, if_pos rfl]
        simp [List.range']
      · obtain ⟨e, he⟩ := hfail attempt (Nat.le_refl _) (by omega)
        obtain ⟨e', he', heq⟩ := ih (attempt + 1) (some e)
          (min (iD * 2 ^ (attempt - 1)) mD :: delays) (by omega) (by omega)
          (fun i hi1 hi2 => hfail i (by omega) hi2)
        refine ⟨e', he', ?_⟩
        simp only [retryGo, he]
        simp only [hf, ite_false, if_neg]
        rw [heq]
        obtain ⟨f', rfl⟩ : ∃ f', f = f' + 1 := ⟨f - 1, by omega⟩
        simp [List.range'_succ, List.append_assoc]

/-- If every attempt before `k` fails and attempt `k` (inside the allowed
window) succeeds with `v`, the attempt loop stops at attempt `k`, returns
`v`, and has inserted exactly the backoff delays of attempts
`attempt, ..., k - 1`. -/
theorem retryGo_succeeds {α : Type} (action : Nat → Except JsError α)
    (mR iD mD : Nat) (ctx : ErrorContext) (k : Nat) (v : α) :
    ∀ (fuel attempt : Nat) (lastError : Option JsError) (delays : List Nat),
      attempt ≤ k → k < attempt + fuel →
      (∀ i, attempt ≤ i → i < k → ∃ e, action i = .error e) →
      action k = .ok v →
      retryGo action mR iD mD ctx attempt fuel lastError delays =
        { result := .ok v
          invocations := k
          delays := delays.reverse ++ (List.range' attempt (k - attempt)).map
            (fun i => min (iD * 2 ^ (i - 1)) mD) } := by
  intro fuel
  induction fuel with
  | zero =>
      intro attempt lastError delays h1 h2
      exact absurd h1 (by omega)
  | succ f ih =>
      intro attempt lastError delays h1 h2 hfail hsucc
      by_cases hak : attempt = k
      · subst hak
        simp only [retryGo, hsucc]
        simp [List.range']
      · have hlt : attempt < k := by omega
        obtain ⟨e, he⟩ := hfail attempt (Nat.le_refl _) hlt
        have hf : f ≠ 0 := by omega
        simp only [retryGo, he, if_neg hf]
        rw [ih (attempt + 1) (some e)
          (min (iD * 2 ^ (attempt - 1)) mD :: delays) (by omega) (by omega)
          (fun i hi1 hi2 => hfail i (by omega) hi2) hsucc]
        have hr : k - attempt = (k - (attempt + 1)) + 1 := by omega
        rw [hr, List.range'_succ]
        simp [List.append_assoc]

/-- If the predicate never evaluates to `true`, the polling loop behaves
exactly like the loop over the constantly-false predicate: in particular
the predicate's exceptions never leak out and the full timeout window is
waited out (same number of evaluations). -/
theorem waitGo_congr_never_true (condition : Nat → Except JsError Bool)
    (interval timeout : Nat) (em : String) (ctx : ErrorContext)
    (hpos : 0 < interval) (h : ∀ j, condition j ≠ Except.ok true) :
    ∀ (n elapsed k : Nat), timeout - elapsed ≤ n →
      waitGo condition interval timeout em ctx hpos k elapsed =
        waitGo (fun _ => Except.ok false) interval timeout em ctx hpos
          k elapsed := by
  intro n
  induction n with
  | zero =>
      intro elapsed k hn
      have hel : ¬ elapsed < timeout := by omega
      conv_lhs => rw [waitGo]
      conv_rhs => rw [waitGo]
      simp [hel]
  | succ n ih =>
      intro elapsed k hn
      conv_lhs => rw [waitGo]
      conv_rhs => rw [waitGo]
      by_cases hel : elapsed < timeout
      · simp only [dif_pos hel]
        cases hc : condition k with
        | ok b =>
            cases b with
            | true => exact absurd hc (h k)
            | false =>
                simp only [hc]
                exact ih (elapsed + interval) (k + 1) (by omega)
        | error e =>
            simp only [hc]
            exact ih (elapsed + interval) (k + 1) (by omega)
      · simp [hel]

/-- The loop over the constantly-false predicate always times out with the
`TestError` built from the configured message and context. -/
theorem waitGo_false_timeout (interval timeout : Nat) (em : String)
    (ctx : ErrorContext) (hpos : 0 < interval) :
    ∀ (n elapsed k : Nat), timeout - elapsed ≤ n →
      (waitGo (fun _ => Except.ok false) interval timeout em ctx hpos
        k elapsed).result = .error (.testError em ctx none) := by
  intro n
  induction n with
  | zero =>
      intro elapsed k hn
      have hel : ¬ elapsed < timeout := by omega
      rw [waitGo]
      simp [hel]
  | succ n ih =>
      intro elapsed k hn
      rw [waitGo]
      by_cases hel : elapsed < timeout
      · simp only [dif_pos hel]
        exact ih (elapsed + interval) (k + 1) (by omega)
      · simp [hel]

/-- Unfolding of `retryAction` to the attempt loop with the `||` defaults
applied. -/
theorem retryAction_def {α : Type} (action : Nat → Except JsError α)
    (options : RetryOptions) :
    retryAction action options =
      retryGo action (jsOrNat options.maxRetries 3)
        (jsOrNat options.initialDelay 1000) (jsOrNat options.maxDelay 10000)
        options.context 1 (jsOrNat options.maxRetries 3) none [] := rfl

/-- Unfolding of `waitForCondition` to the polling loop with the `||`
defaults applied. -/
theorem waitForCondition_def (condition : Nat → Except JsError Bool)
    (options : WaitOptions) :
    waitForCondition condition options =
      waitGo condition (jsOrNat options.interval 500)
        (jsOrNat options.timeout 30000)
        (jsOrStr options.errorMessage "Condition not met within timeout")
        options.context (jsOrNat_pos options.interval 500 (by omega)) 0 0 := rfl

/-! ## The specification claims -/

/-- C1: for every supplied `maxRetries = N` with `N ≥ 1`, `retryAction`
invokes the action at most `N` times; and if all `N` invocations throw, the
call rejects with a `TestError` whose message reports failure after exactly
`N` attempts and which carries the last underlying error as
`originalError`. -/
theorem C1_retry_bound_and_exhaustion {α : Type} (N : Nat)
    (options : RetryOptions) (hN : 1 ≤ N)
    (hopt : options.maxRetries = some N) :
    (∀ action : Nat → Except JsError α,
      (retryAction action options).invocations ≤ N) ∧
    (∀ action : Nat → Except JsError α,
      (∀ i, 1 ≤ i → i ≤ N → ∃ e, action i = Except.error e) →
      ∃ e, action N = Except.error e ∧
        (retryAction action options).result =
          Except.error (JsError.testError
            ("Action failed after " ++ toString N ++ " attempts: " ++
              e.message)
            options.context (some e))) := by
  have hmr : jsOrNat options.maxRetries 3 = N := by
    rw [hopt]
    exact jsOrNat_some_of_pos N 3 hN
  constructor
  · intro action
    have h := retryGo_invocations_le action (jsOrNat options.maxRetries 3)
      (jsOrNat options.initialDelay 1000) (jsOrNat options.maxDelay 10000)
      options.context (jsOrNat options.maxRetries 3) 1 none []
    rw [← retryAction_def] at h
    omega
  · intro action hfail
    obtain ⟨e, he, heq⟩ := retryGo_all_fail action
      (jsOrNat options.maxRetries 3) (jsOrNat options.initialDelay 1000)
      (jsOrNat options.maxDelay 10000) options.context
      (jsOrNat options.maxRetries 3) 1 none [] (by omega) (by omega)
      (fun i h1 h2 => hfail i h1 (by omega))
    rw [hmr] at he heq
    refine ⟨e, he, ?_⟩
    rw [retryAction_def, hmr, heq]
    rfl

/-- Witness for C1 at `N = 2` with an action that throws on every
attempt. -/
theorem C1_witness :
    (retryAction alwaysFailRaw
      { maxRetries := some 2, context := ctx0 }).invocations ≤ 2 ∧
    ∃ e, alwaysFailRaw 2 = Except.error e ∧
      (retryAction alwaysFailRaw
        { maxRetries := some 2, context := ctx0 }).result =
        Except.error (JsError.testError
          ("Action failed after " ++ toString 2 ++ " attempts: " ++
            e.message)
          ctx0 (some e)) := by
  have h := C1_retry_bound_and_exhaustion (α := Nat) 2
    { maxRetries := some 2, context := ctx0 } (by omega) rfl
  exact ⟨h.1 alwaysFailRaw,
    h.2 alwaysFailRaw (fun i h1 h2 => ⟨JsError.raw "boom", rfl⟩)⟩

/-- C2 counterexample: a raw error thrown by the wrapped action crosses the
`wrapAction` boundary unwrapped — the rejection is not a `TestError` and
carries no `.context` at all. -/
theorem C2_counterexample :
    (wrapAction badPage
      (Except.error (JsError.raw "boom") : Except JsError Nat) ctx0 "t").1 =
      Except.error (JsError.raw "boom") ∧
    (JsError.raw "boom").isTestError = false ∧
    rejectionContext (wrapAction badPage
      (Except.error (JsError.raw "boom") : Except JsError Nat)
      ctx0 "t").1 = none :=
  ⟨rfl, rfl, rfl⟩

/-- C2 (amended): a rejection of `wrapAction` is the original error
re-thrown unchanged, so it is a `TestError` only when the wrapped action
already threw one, and its observable `.context` is the original error's
own `.context` — callers cannot in general pattern-match on the supplied
context. -/
theorem C2_amended_wrapAction_not_normalized {α : Type} (page : Page)
    (e : JsError) (context : ErrorContext) (now : String) :
    (wrapAction page (Except.error e : Except JsError α) context now).1 =
      Except.error e ∧
    rejectionContext (wrapAction page
      (Except.error e : Except JsError α) context now).1 = e.contextProp :=
  ⟨rfl, rfl⟩

/-- C3 counterexample: with `initialDelay = 20000` above
`maxDelay = 10000`, the delay before attempt 2 (the first retry delay) is
the cap 10000, not `initialDelay`. -/
theorem C3_counterexample :
    (retryAction alwaysFailRaw
      { maxRetries := some 2, initialDelay := some 20000,
        maxDelay := some 10000, context := ctx0 }).delays = [10000] ∧
    (retryAction alwaysFailRaw
      { maxRetries := some 2, initialDelay := some 20000,
        maxDelay := some 10000, context := ctx0 }).delays ≠ [20000] :=
  ⟨rfl, by decide⟩

/-- C3 (amended): for a run of consecutive failing attempts, the delay
inserted before attempt `i + 1` equals
`min (initialDelay * 2 ^ (i - 1)) maxDelay` — so the first retry delay
equals `min initialDelay maxDelay`, which is `initialDelay` whenever
`initialDelay ≤ maxDelay` (in particular with the defaults 1000/10000 the
delays before attempts 2..6 are 1000, 2000, 4000, 8000, 10000 ms). -/
theorem C3_amended_backoff_growth {α : Type}
    (action : Nat → Except JsError α) (options : RetryOptions)
    (hfail : ∀ i, 1 ≤ i → i ≤ jsOrNat options.maxRetries 3 →
      ∃ e, action i = Except.error e) :
    (retryAction action options).delays =
      (List.range' 1 (jsOrNat options.maxRetries 3 - 1)).map
        (fun i => min (jsOrNat options.initialDelay 1000 * 2 ^ (i - 1))
          (jsOrNat options.maxDelay 10000)) := by
  obtain ⟨e, he, heq⟩ := retryGo_all_fail action
    (jsOrNat options.maxRetries 3) (jsOrNat options.initialDelay 1000)
    (jsOrNat options.maxDelay 10000) options.context
    (jsOrNat options.maxRetries 3) 1 none []
    (jsOrNat_pos options.maxRetries 3 (by omega)) (by omega) hfail
  rw [retryAction_def, heq]
  simp

/-- Witness for C3: six all-failing attempts with the default delays
produce exactly the delays 1000, 2000, 4000, 8000 and the capped 10000. -/
theorem C3_witness :
    (retryAction alwaysFailRaw
      { maxRetries := some 6, context := ctx0 }).delays =
      [1000, 2000, 4000, 8000, 10000] := by
  have h := C3_amended_backoff_growth alwaysFailRaw
    { maxRetries := some 6, context := ctx0 }
    (fun i h1 h2 => ⟨JsError.raw "boom", rfl⟩)
  rw [h]
  rfl

/-- C4 counterexample: a failing `wrapAction` call rejects with an error
whose `.context` is absent, not the supplied context object. -/
theorem C4_counterexample :
    rejectionContext (wrapAction badPage
      (Except.error (JsError.raw "boom") : Except JsError Nat)
      ctx0 "t").1 = none ∧
    (none : Option ErrorContext) ≠ some ctx0 :=
  ⟨rfl, by decide⟩

/-- C4 (amended): context fidelity holds for `retryAction` and
`waitForCondition` — on failure each rejects with a `TestError` whose
`.context` is exactly the supplied context object — while a rejection of
`wrapAction` carries only whatever `.context` the original error itself
had. -/
theorem C4_amended_context_fidelity {α : Type}
    (action : Nat → Except JsError α) (options : RetryOptions)
    (condition : Nat → Except JsError Bool) (woptions : WaitOptions)
    (hfail : ∀ i, 1 ≤ i → i ≤ jsOrNat options.maxRetries 3 →
      ∃ e, action i = Except.error e)
    (hnever : ∀ j, condition j ≠ Except.ok true) :
    rejectionContext (retryAction action options).result =
      some options.context ∧
    rejectionContext (waitForCondition condition woptions).result =
      some woptions.context := by
  constructor
  · obtain ⟨e, he, heq⟩ := retryGo_all_fail action
      (jsOrNat options.maxRetries 3) (jsOrNat options.initialDelay 1000)
      (jsOrNat options.maxDelay 10000) options.context
      (jsOrNat options.maxRetries 3) 1 none []
      (jsOrNat_pos options.maxRetries 3 (by omega)) (by omega) hfail
    rw [retryAction_def, heq]
    rfl
  · rw [waitForCondition_def]
    rw [waitGo_congr_never_true condition (jsOrNat woptions.interval 500)
      (jsOrNat woptions.timeout 30000)
      (jsOrStr woptions.errorMessage "Condition not met within timeout")
      woptions.context (jsOrNat_pos woptions.interval 500 (by omega)) hnever
      (jsOrNat woptions.timeout 30000) 0 0 (by omega)]
    rw [waitGo_false_timeout (jsOrNat woptions.interval 500)
      (jsOrNat woptions.timeout 30000)
      (jsOrStr woptions.errorMessage "Condition not met within timeout")
      woptions.context (jsOrNat_pos woptions.interval 500 (by omega))
      (jsOrNat woptions.timeout 30000) 0 0 (by omega)]
    rfl

/-- Witness for C4: an always-failing retry and an always-throwing poll
both reject carrying exactly the supplied context. -/
theorem C4_witness :
    rejectionContext (retryAction alwaysFailRaw
      { maxRetries := some 2, context := ctx0 }).result = some ctx0 ∧
    rejectionContext (waitForCondition alwaysThrowCond
      { timeout := some 3, interval := some 1, context := ctx0 }).result =
      some ctx0 :=
  C4_amended_context_fidelity alwaysFailRaw
    { maxRetries := some 2, context := ctx0 } alwaysThrowCond
    { timeout := some 3, interval := some 1, context := ctx0 }
    (fun i h1 h2 => ⟨JsError.raw "boom", rfl⟩)
    (fun j => by simp [alwaysThrowCond])

/-- C5: for every action that throws, `wrapAction` does not resolve with a
value: after the logging/diagnostics path it re-throws the original error
itself, so the observed message is identical to the original error's
message. -/
theorem C5_wrapAction_no_swallowing {α : Type} (page : Page) (e : JsError)
    (context : ErrorContext) (now : String) :
    (wrapAction page (Except.error e : Except JsError α) context now).1 =
      Except.error e ∧
    promiseResolved (wrapAction page
      (Except.error e : Except JsError α) context now).1 = false ∧
    rejectionMessage (wrapAction page
      (Except.error e : Except JsError α) context now).1 =
      some e.message :=
  ⟨rfl, rfl, rfl⟩

/-- C6 counterexample: on a page whose every query throws, the diagnostics
capture fails internally, yet no warning-level record is emitted — the
swallowed failure is logged at debug level under `Diagnostics captured` —
while the original error still propagates. -/
theorem C6_counterexample :
    captureDiagnosticsBody badPage "t" =
      Except.error (JsError.raw "page closed") ∧
    captureDiagnostics badPage "t" =
      Except.ok (DiagResult.failure "Failed to capture diagnostics") ∧
    (wrapAction badPage
      (Except.error (JsError.raw "boom") : Except JsError Nat)
      ctx0 "t").2 =
      [{ level := LogLevel.error, message := "Test action failed" },
       { level := LogLevel.debug, message := "Diagnostics captured" }] ∧
    ((wrapAction badPage
      (Except.error (JsError.raw "boom") : Except JsError Nat)
      ctx0 "t").2.all fun l => ! (l.level == LogLevel.warn)) = true ∧
    (wrapAction badPage
      (Except.error (JsError.raw "boom") : Except JsError Nat)
      ctx0 "t").1 = Except.error (JsError.raw "boom") :=
  ⟨rfl, rfl, rfl, rfl, rfl⟩

/-- C6 (amended): if the diagnostics capture fails, the failure is
swallowed — `captureDiagnostics` converts it into the tagged error object
and `handleError` logs it at debug level under `Diagnostics captured` (the
warning path would only run if the capture promise rejected, which it never
does) — and the error propagated to the caller of `wrapAction` is still
the original error raised by the action. -/
theorem C6_amended_diag_failure_never_masks {α : Type} (page : Page)
    (e : JsError) (context : ErrorContext) (now : String)
    (hdiag : ∃ de, captureDiagnosticsBody page now = Except.error de) :
    (wrapAction page (Except.error e : Except JsError α) context now).1 =
      Except.error e ∧
    (wrapAction page (Except.error e : Except JsError α) context now).2 =
      [{ level := LogLevel.error, message := "Test action failed" },
       { level := LogLevel.debug, message := "Diagnostics captured" }] := by
  obtain ⟨de, hde⟩ := hdiag
  refine ⟨rfl, ?_⟩
  show handleError page e context now = _
  unfold handleError captureDiagnostics
  rw [hde]

/-- Witness for C6 on the all-throwing page. -/
theorem C6_witness :
    (wrapAction badPage
      (Except.error (JsError.raw "net") : Except JsError Nat)
      ctx0 "t2").1 = Except.error (JsError.raw "net") ∧
    (wrapAction badPage
      (Except.error (JsError.raw "net") : Except JsError Nat)
      ctx0 "t2").2 =
      [{ level := LogLevel.error, message := "Test action failed" },
       { level := LogLevel.debug, message := "Diagnostics captured" }] :=
  C6_amended_diag_failure_never_masks badPage (JsError.raw "net") ctx0 "t2"
    ⟨JsError.raw "page closed", rfl⟩

/-- C7: `captureDiagnostics` never rejects: for every page state (including
one on which every query throws) it resolves, either with a full snapshot
or with the tagged object `\x7b error: string \x7d`. -/
theorem C7_captureDiagnostics_never_rejects (page : Page) (now : String) :
    promiseResolved (captureDiagnostics page now) = true ∧
    ((∃ s, captureDiagnostics page now =
        Except.ok (DiagResult.snapshot s)) ∨
      captureDiagnostics page now =
        Except.ok (DiagResult.failure "Failed to capture diagnostics")) := by
  unfold captureDiagnostics
  cases captureDiagnosticsBody page now with
  | ok s => exact ⟨rfl, Or.inl ⟨s, rfl⟩⟩
  | error e => exact ⟨rfl, Or.inr rfl⟩

/-- C8: if the predicate never evaluates to `true` — it returns `false` or
throws on every evaluation — `waitForCondition` rejects with a `TestError`
carrying the caller-supplied `errorMessage` (or the default) and the
supplied context; predicate exceptions are swallowed, and the call behaves
exactly like one whose predicate always returns `false`, waiting out the
full timeout (same number of evaluations). -/
theorem C8_waitForCondition_timeout (condition : Nat → Except JsError Bool)
    (options : WaitOptions)
    (hnever : ∀ j, condition j ≠ Except.ok true) :
    (waitForCondition condition options).result =
      Except.error (JsError.testError
        (jsOrStr options.errorMessage "Condition not met within timeout")
        options.context none) ∧
    waitForCondition condition options =
      waitForCondition (fun _ => Except.ok false) options := by
  have hcong := waitGo_congr_never_true condition
    (jsOrNat options.interval 500) (jsOrNat options.timeout 30000)
    (jsOrStr options.errorMessage "Condition not met within timeout")
    options.context (jsOrNat_pos options.interval 500 (by omega)) hnever
    (jsOrNat options.timeout 30000) 0 0 (by omega)
  constructor
  · rw [waitForCondition_def, hcong]
    exact waitGo_false_timeout (jsOrNat options.interval 500)
      (jsOrNat options.timeout 30000)
      (jsOrStr options.errorMessage "Condition not met within timeout")
      options.context (jsOrNat_pos options.interval 500 (by omega))
      (jsOrNat options.timeout 30000) 0 0 (by omega)
  · rw [waitForCondition_def, waitForCondition_def]
    exact hcong

/-- Witness for C8 with an always-throwing predicate and a caller-supplied
message. -/
theorem C8_witness :
    (waitForCondition alwaysThrowCond
      { timeout := some 3, interval := some 1, errorMessage := some "nope",
        context := ctx0 }).result =
      Except.error (JsError.testError "nope" ctx0 none) := by
  have h := C8_waitForCondition_timeout alwaysThrowCond
    { timeout := some 3, interval := some 1, errorMessage := some "nope",
      context := ctx0 }
    (fun j => by simp [alwaysThrowCond])
  rw [h.1]
  rfl

/-- C9: if the action succeeds on attempt `k` within the retry bound, the
action is invoked exactly `k` times, the successful value is returned
unchanged, and only the `k - 1` backoff delays before the success were
inserted (no delay after it). -/
theorem C9_retry_short_circuit {α : Type} (action : Nat → Except JsError α)
    (options : RetryOptions) (k : Nat) (v : α)
    (hk1 : 1 ≤ k) (hkN : k ≤ jsOrNat options.maxRetries 3)
    (hfail : ∀ i, 1 ≤ i → i < k → ∃ e, action i = Except.error e)
    (hsucc : action k = Except.ok v) :
    (retryAction action options).result = Except.ok v ∧
    (retryAction action options).invocations = k ∧
    (retryAction action options).delays.length = k - 1 := by
  have heq := retryGo_succeeds action (jsOrNat options.maxRetries 3)
    (jsOrNat options.initialDelay 1000) (jsOrNat options.maxDelay 10000)
    options.context k v (jsOrNat options.maxRetries 3) 1 none []
    hk1 (by omega) hfail hsucc
  rw [retryAction_def, heq]
  refine ⟨rfl, rfl, ?_⟩
  simp

/-- Witness for C9: success on attempt 3 of an allowed 5. -/
theorem C9_witness :
    (retryAction failTwiceThenOk
      { maxRetries := some 5, context := ctx0 }).result = Except.ok 42 ∧
    (retryAction failTwiceThenOk
      { maxRetries := some 5, context := ctx0 }).invocations = 3 ∧
    (retryAction failTwiceThenOk
      { maxRetries := some 5, context := ctx0 }).delays.length = 3 - 1 :=
  C9_retry_short_circuit failTwiceThenOk
    { maxRetries := some 5, context := ctx0 } 3 42 (by omega) (by decide)
    (fun i h1 h2 => ⟨JsError.raw "flaky", by
      have h3 : ¬ 3 ≤ i := by omega
      simp [failTwiceThenOk, h3]⟩)
    rfl

/-- C10: option defaults are applied with JavaScript `||`, so a supplied 0
selects the default: `retryAction` with `maxRetries := 0` and an
always-failing action invokes the action exactly 3 times before rejecting,
and `waitForCondition` with `timeout := 0` or `interval := 0` behaves
exactly as with the defaults 30000 ms and 500 ms. -/
theorem C10_zero_selects_defaults :
    jsOrNat (some 0) 3 = 3 ∧ jsOrNat (some 0) 30000 = 30000 ∧
    jsOrNat (some 0) 500 = 500 ∧
    (retryAction alwaysFailRaw
      { maxRetries := some 0, context := ctx0 }).invocations = 3 ∧
    (retryAction alwaysFailRaw
      { maxRetries := some 0, context := ctx0 }).result =
      Except.error (JsError.testError "Action failed after 3 attempts: boom"
        ctx0 (some (JsError.raw "boom"))) ∧
    (∀ (condition : Nat → Except JsError Bool) (em : Option String)
        (c : ErrorContext),
      waitForCondition condition
        { timeout := some 0, interval := some 0, errorMessage := em,
          context := c } =
      waitForCondition condition { errorMessage := em, context := c }) := by
  refine ⟨rfl, rfl, rfl, rfl, rfl, ?_⟩
  intro condition em c
  rfl
